import Mathlib

/-!
Shallow embedding of `src/src/components/VoiceChatbot.tsx` from
`bhanu553/mithai-voice-buddy`.

The component is a single-threaded, event-driven voice session controller.
We embed it as an explicit state record (`CState`) together with one Lean
function per event handler of the source, translated line by line:

* `onresult`       — `recognitionRef.current.onresult` (lines 34-97);
* `onRecError`     — `recognitionRef.current.onerror` (lines 107-115);
* `onRecEnd`       — `recognitionRef.current.onend` (lines 117-129);
* `startListening` — the `startListening(retryAttempt)` function (147-190);
* `stopAiAudio`    — `stopAiAudio` (192-211);
* `toggleAssistant`— `toggleAssistant` (213-253);
* `sendPhase1`     — the synchronous prefix of `sendToBackend` (255-285),
  up to the `await fetch(PRODUCTION_URL, ...)` suspension point;
* `respContinuation` — the rest of `sendToBackend` (287-331), run when the
  production fetch settles;
* `playAudioBlobSync` — the synchronous part of `playAudioBlob` (334-357),
  up to the `await audio.play()` suspension point;
* `playSettled`    — the continuation after `audio.play()` settles
  (358-400): on success the `onended`/`onerror` handlers are attached and
  `sendToBackend`'s `finally` runs; on rejection the `catch` of
  `playAudioBlob` runs, then the `finally`;
* `audioEnded` / `audioErrored` — the `audio.onended` / `audio.onerror`
  handlers (359-390).

Modelling conventions:

* React `useState` setters and `useRef` cells are modelled as immediate
  updates of the state record (the spec treats the component as a plain
  state machine; stale-closure artefacts of React are out of scope).
* Every `setTimeout` callback and every pending promise is recorded in the
  state (`pendingDispatches`, `pendingStarts`, `verifyTimer`,
  `toggleResumes`, `fetches`, `playAwaits`, `pendingClears`); a separate
  event fires it.  Several timeouts of the same kind may be pending at
  once, hence lists / counters; `reinitTimeoutRef` is a single ref whose
  old timer is cleared before a new one is set, hence a single `Bool`.
* `recognition.start()` throws when a session is already active (the
  browser's InvalidStateError) or when the environment fails; the latter
  is an oracle bit carried by the event that invokes it.
  `recognition.stop()` only requests the end of the session; the session
  stays active until the recognizer's own `onend` event arrives.
* Object URLs are numbered by a fresh counter `nextUrl`; creations and
  revocations are logged in `createdUrls` / `revokedUrls` (with
  multiplicity, so a double revoke would be visible).  Every URL the
  component creates comes from `URL.createObjectURL`, so the source's
  `audioUrl.startsWith('blob:')` test is always true.
* A paused `HTMLAudioElement` emits no further `ended` event, so a handle
  that was paused and dropped is removed from the state; terminal audio
  events are gated on the current handle being unpaused with handlers
  attached (the source attaches `onended`/`onerror` only after
  `audio.play()` resolves).
* `playStarts` logs the payload of every playback attempt
  (each call of `playAudioBlob`), `testFetches` logs the fire-and-forget
  requests to `TEST_URL`.
-/

namespace MithaiVoice

/-- `TEST_URL` constant of `VoiceChatbot.tsx` (line 6). -/
def TEST_URL : String := "https://spacecadet4.app.n8n.cloud/webhook-test/voice-reply"

/-- `PRODUCTION_URL` constant of `VoiceChatbot.tsx` (line 7). -/
def PRODUCTION_URL : String := "https://spacecadet4.app.n8n.cloud/webhook/voice-reply"

/-- A live `HTMLAudioElement` handle as held by `currentAudioRef`. -/
structure AudioH where
  url : Nat
  paused : Bool
  handlersAttached : Bool
deriving Repr, DecidableEq

/-- The component's whole mutable state: `useState` flags, `useRef` cells,
and the pending timeouts / promises of the event loop. -/
structure CState where
  hasRecognizer : Bool
  isRecording : Bool
  isAiSpeaking : Bool
  isResponding : Bool
  isEnabled : Bool
  userTranscript : String
  aiResponse : String
  pendingInterruption : Bool
  isListening : Bool
  recognitionActive : Bool
  currentAudio : Option AudioH
  pendingDispatches : List String
  fetches : List String
  testFetches : List String
  playAwaits : List Nat
  pendingStarts : List Nat
  verifyTimer : Bool
  toggleResumes : Nat
  pendingClears : Nat
  nextUrl : Nat
  createdUrls : List Nat
  revokedUrls : List Nat
  playStarts : List Nat
deriving Repr, DecidableEq

/-- Initial state on mount: every flag false, every ref null, no pending
work.  `hasRec` says whether the environment offers a speech recognizer
(`'webkitSpeechRecognition' in window || 'SpeechRecognition' in window`). -/
def initState (hasRec : Bool) : CState :=
  { hasRecognizer := hasRec
    isRecording := false
    isAiSpeaking := false
    isResponding := false
    isEnabled := false
    userTranscript := ""
    aiResponse := ""
    pendingInterruption := false
    isListening := false
    recognitionActive := false
    currentAudio := none
    pendingDispatches := []
    fetches := []
    testFetches := []
    playAwaits := []
    pendingStarts := []
    verifyTimer := false
    toggleResumes := 0
    pendingClears := 0
    nextUrl := 0
    createdUrls := []
    revokedUrls := []
    playStarts := [] }

/-- `startListening(retryAttempt)` (lines 147-190).  `envFail` is the
oracle for an environment-level failure of `recognition.start()`; the call
also throws when a recognition session is already active. -/
def startListening (s : CState) (retryAttempt : Nat) (envFail : Bool) : CState :=
  if !s.hasRecognizer then s
  else if s.isAiSpeaking || s.isResponding then s
  else if s.isRecording then { s with isListening := true }
  else
    let s1 := { s with isRecording := true, isListening := true }
    if s.recognitionActive || envFail then
      -- recognition.start() threw; the catch block (lines 179-189)
      let s2 := { s1 with isRecording := false, isListening := false }
      if retryAttempt == 0 && s.isEnabled then
        { s2 with pendingStarts := s2.pendingStarts ++ [1] }
      else s2
    else
      let s2 := { s1 with recognitionActive := true }
      -- verification timer (lines 170-178), only on the first attempt;
      -- the old reinit timer is cleared before the new one is set
      if retryAttempt == 0 then { s2 with verifyTimer := true } else s2

/-- `stopAiAudio` (lines 192-211): pause, reset position, revoke the blob
URL, null the ref, clear the speaking flag and the shown reply. -/
def stopAiAudio (s : CState) : CState :=
  match s.currentAudio with
  | none => s
  | some a =>
      { s with currentAudio := none
               isAiSpeaking := false
               aiResponse := ""
               isListening := false
               revokedUrls := s.revokedUrls ++ [a.url] }

/-- The synchronous prefix of `sendToBackend` (lines 255-285): set the
responding flag and the placeholder reply, issue the fire-and-forget
request to `TEST_URL`, and start the awaited request to
`PRODUCTION_URL`. -/
def sendPhase1 (s : CState) (t : String) : CState :=
  { s with isResponding := true
           aiResponse := "Processing..."
           testFetches := s.testFetches ++ [t]
           fetches := s.fetches ++ [t] }

/-- Outcome of one HTTP fetch: a response (with `ok`, the declared
`content-type` header and an abstract body identity), or a transport
error (the promise rejects). -/
inductive FetchOutcome where
  | resp (ok : Bool) (contentType : Option String) (body : Nat)
  | netError
deriving Repr, DecidableEq

/-- Substring test on character lists by structural recursion (so every
proof can evaluate it). -/
def charsInclude (n : List Char) : List Char → Bool
  | [] => n.isPrefixOf []
  | c :: t => n.isPrefixOf (c :: t) || charsInclude n (t)

/-- JavaScript `String.prototype.includes`. -/
def jsIncludes (h sub : String) : Bool := charsInclude sub.data h.data

/-- The content-kind test of line 297:
`contentType?.includes('audio') || contentType?.includes('mp3') || contentType?.includes('mpeg')`
(`none` stands for a missing header, on which optional chaining yields a
falsy value). -/
def isAudioContentType (ct : Option String) : Bool :=
  match ct with
  | none => false
  | some c => jsIncludes c "audio" || jsIncludes c "mp3" || jsIncludes c "mpeg"

/-- The synchronous part of `playAudioBlob` (lines 334-357), up to
`await audio.play()`: stop and drop any previous audio (pause + null the
ref — its URL is NOT revoked here), create a fresh object URL and a fresh
`Audio`, store it in `currentAudioRef`, set the speaking flag, clear the
responding flag, and start playing.  The second component is the previous
handle as it is left behind: paused, dereferenced, URL still alive. -/
def playAudioBlobSync (s : CState) (body : Nat) : CState × Option AudioH :=
  let prev := s.currentAudio.map (fun a => { a with paused := true })
  let url := s.nextUrl
  let audio : AudioH := { url := url, paused := false, handlersAttached := false }
  ({ s with currentAudio := some audio
            isAiSpeaking := true
            isResponding := false
            nextUrl := s.nextUrl + 1
            createdUrls := s.createdUrls ++ [url]
            playStarts := s.playStarts ++ [body]
            playAwaits := s.playAwaits ++ [url] }, prev)

/-- The continuation of `sendToBackend` once the `PRODUCTION_URL` fetch
settles (lines 287-331): on `response.ok` both the audio-content branch
(line 297) and the lenient fallback branch (line 306) read the body as a
blob and hand it to `playAudioBlob`; a non-ok status throws
(`Backend error`), and both it and a transport rejection land in the
`catch` (323-328), which schedules a mic restart when enabled and no
interruption is pending; the `finally` (329-331) clears the responding
flag.  (In the success case the `finally` runs only after `playAudioBlob`
resolves — see `playSettled`.) -/
def respContinuation (s : CState) (out : FetchOutcome) : CState :=
  match out with
  | .resp true ct body =>
      if isAudioContentType ct then
        (playAudioBlobSync { s with aiResponse := "Speaking..." } body).1
      else
        -- lenient fallback: try to play the body anyway (lines 306-317)
        (playAudioBlobSync s body).1
  | .resp false _ _ =>
      let s1 := if s.isEnabled && !s.pendingInterruption
                then { s with pendingStarts := s.pendingStarts ++ [0] }
                else s
      { s1 with isResponding := false }
  | .netError =>
      let s1 := if s.isEnabled && !s.pendingInterruption
                then { s with pendingStarts := s.pendingStarts ++ [0] }
                else s
      { s1 with isResponding := false }

/-- `recognitionRef.current.onresult` (lines 34-97).  Fires only while a
recognition session is active.  If the AI is speaking: interruption branch
(39-76) — set the interruption flag, tear down the audio handle (pause,
revoke, null, clear the speaking flag — all inside
`if (currentAudioRef.current)`), request recognition stop, clear the
recording flag, store the transcript, reset the interruption flag
immediately (line 68), and schedule `sendToBackend(transcript)` after
300 ms; the branch returns before line 96.  Otherwise, if not responding:
normal branch (79-93) — clear the recording flag, store the transcript,
request recognition stop, and run `sendToBackend` (whose synchronous
prefix executes now).  In every non-interrupted path line 96 schedules a
transcript clear. -/
def onresult (s : CState) (t : String) : CState :=
  if !s.recognitionActive then s
  else if s.isAiSpeaking then
    let s1 := { s with pendingInterruption := true }
    let s2 :=
      match s1.currentAudio with
      | some a =>
          { s1 with currentAudio := none
                    isAiSpeaking := false
                    revokedUrls := s1.revokedUrls ++ [a.url] }
      | none => s1
    { s2 with isRecording := false
              userTranscript := t
              pendingInterruption := false
              pendingDispatches := s2.pendingDispatches ++ [t] }
  else if !s.isResponding then
    let s1 := sendPhase1 { s with isRecording := false, userTranscript := t } t
    { s1 with pendingClears := s1.pendingClears + 1 }
  else
    { s with pendingClears := s.pendingClears + 1 }

/-- `recognitionRef.current.onerror` (lines 107-115). -/
def onRecError (s : CState) : CState :=
  if !s.recognitionActive then s
  else
    let s1 := { s with isRecording := false, isListening := false }
    if s.isEnabled && !s.pendingInterruption
    then { s1 with pendingStarts := s1.pendingStarts ++ [0] }
    else s1

/-- `recognitionRef.current.onend` (lines 117-129): the session is over. -/
def onRecEnd (s : CState) : CState :=
  if !s.recognitionActive then s
  else
    let s1 := { s with recognitionActive := false
                       isRecording := false
                       isListening := false }
    if s.isEnabled && !s.isAiSpeaking && !s.isResponding && !s.pendingInterruption
    then { s1 with pendingStarts := s1.pendingStarts ++ [0] }
    else s1

/-- `toggleAssistant` (lines 213-253): no-op without a recognizer; manual
interrupt while speaking or responding (219-233, keeps the assistant
enabled and schedules flag-clear + restart after 300 ms); otherwise
disable (235-245) or enable (246-252). -/
def toggleAssistant (s : CState) : CState :=
  if !s.hasRecognizer then s
  else if s.isAiSpeaking || s.isResponding then
    let s1 := stopAiAudio { s with pendingInterruption := true }
    { s1 with isResponding := false
              isEnabled := true
              toggleResumes := s1.toggleResumes + 1 }
  else if s.isEnabled then
    -- recognition.stop() is requested; the session ends via `onend`
    { s with isEnabled := false, isRecording := false, pendingInterruption := false }
  else
    { s with isEnabled := true
             pendingInterruption := false
             pendingStarts := s.pendingStarts ++ [0] }

/-- The continuation after `audio.play()` settles.  On resolution (line
357 completes) the `onended`/`onerror` handlers are attached (359-390) and
`sendToBackend`'s `finally` clears the responding flag; on rejection the
`catch` of `playAudioBlob` (391-400) clears the speaking flag and the
shown reply — without revoking the URL or nulling the ref — and schedules
a restart when enabled with no pending interruption, then the `finally`
runs. -/
def playSettled (s : CState) (url : Nat) (ok : Bool) : CState :=
  if url ∈ s.playAwaits then
    let s0 := { s with playAwaits := s.playAwaits.erase url }
    if ok then
      let s1 :=
        match s0.currentAudio with
        | some a =>
            if a.url == url
            then { s0 with currentAudio := some { a with handlersAttached := true } }
            else s0
        | none => s0
      { s1 with isResponding := false }
    else
      let s1 := { s0 with isAiSpeaking := false, aiResponse := "" }
      let s2 := if s1.isEnabled && !s1.pendingInterruption
                then { s1 with pendingStarts := s1.pendingStarts ++ [0] }
                else s1
      { s2 with isResponding := false }
  else s

/-- `audio.onended` (lines 359-377): revoke the URL, null the ref, clear
the speaking flag and shown reply, schedule a mic restart when enabled
with no pending interruption, and reset the interruption flag.  Gated on
the handle being current, unpaused and with handlers attached. -/
def audioEnded (s : CState) : CState :=
  match s.currentAudio with
  | some a =>
      if a.handlersAttached && !a.paused then
        let s1 := { s with revokedUrls := s.revokedUrls ++ [a.url]
                           currentAudio := none
                           isAiSpeaking := false
                           aiResponse := "" }
        let s2 := if s.isEnabled && !s.pendingInterruption
                  then { s1 with pendingStarts := s1.pendingStarts ++ [0] }
                  else s1
        { s2 with pendingInterruption := false }
      else s
  | none => s

/-- `audio.onerror` (lines 379-390): like `onended` but without resetting
the interruption flag. -/
def audioErrored (s : CState) : CState :=
  match s.currentAudio with
  | some a =>
      if a.handlersAttached && !a.paused then
        let s1 := { s with revokedUrls := s.revokedUrls ++ [a.url]
                           currentAudio := none
                           isAiSpeaking := false
                           aiResponse := "" }
        if s.isEnabled && !s.pendingInterruption
        then { s1 with pendingStarts := s1.pendingStarts ++ [0] }
        else s1
      else s
  | none => s

/-- The verification timeout of `startListening` fires (lines 172-177). -/
def verifyFired (s : CState) (envFail : Bool) : CState :=
  if s.verifyTimer then
    let s1 := { s with verifyTimer := false }
    if !s.isRecording && s.isEnabled && !s.isAiSpeaking && !s.isResponding
    then startListening s1 1 envFail
    else s1
  else s

/-- One of the scheduled `setTimeout(() => startListening(k), 300)`
callbacks fires. -/
def startTimerFired (s : CState) (k : Nat) (envFail : Bool) : CState :=
  if k ∈ s.pendingStarts then
    startListening { s with pendingStarts := s.pendingStarts.erase k } k envFail
  else s

/-- The 300 ms callback of `toggleAssistant`'s interrupt branch fires
(lines 228-231): clear the interruption flag, then `startListening()`. -/
def toggleResumeFired (s : CState) (envFail : Bool) : CState :=
  if 0 < s.toggleResumes then
    startListening
      { s with toggleResumes := s.toggleResumes - 1, pendingInterruption := false }
      0 envFail
  else s

/-- The 300 ms delayed `sendToBackend(transcript)` of the interruption
branch fires (lines 71-73). -/
def dispatchFired (s : CState) (t : String) : CState :=
  if t ∈ s.pendingDispatches then
    sendPhase1 { s with pendingDispatches := s.pendingDispatches.erase t } t
  else s

/-- The `PRODUCTION_URL` fetch of a dispatch settles. -/
def fetchResolved (s : CState) (t : String) (out : FetchOutcome) : CState :=
  if t ∈ s.fetches then
    respContinuation { s with fetches := s.fetches.erase t } out
  else s

/-- A `setTimeout(() => setUserTranscript(""), 3000)` (line 96) fires. -/
def clearFired (s : CState) : CState :=
  if 0 < s.pendingClears then
    { s with pendingClears := s.pendingClears - 1, userTranscript := "" }
  else s

/-- The event alphabet: user command, recognizer callbacks, timeout
firings and promise settlements.  Oracle bits ride on the events. -/
inductive Event where
  | toggle
  | result (t : String)
  | recError
  | recEnd
  | verifyFire (envFail : Bool)
  | startFire (k : Nat) (envFail : Bool)
  | resumeFire (envFail : Bool)
  | dispatchFire (t : String)
  | fetchResolve (t : String) (out : FetchOutcome)
  | playSettle (url : Nat) (ok : Bool)
  | ended
  | errored
  | clearFire
deriving Repr, DecidableEq

/-- One step of the event loop. -/
def step (s : CState) : Event → CState
  | .toggle => toggleAssistant s
  | .result t => onresult s t
  | .recError => onRecError s
  | .recEnd => onRecEnd s
  | .verifyFire f => verifyFired s f
  | .startFire k f => startTimerFired s k f
  | .resumeFire f => toggleResumeFired s f
  | .dispatchFire t => dispatchFired s t
  | .fetchResolve t out => fetchResolved s t out
  | .playSettle u ok => playSettled s u ok
  | .ended => audioEnded s
  | .errored => audioErrored s
  | .clearFire => clearFired s

/-- Run a whole event trace. -/
def runTrace (s : CState) (es : List Event) : CState := es.foldl step s

/-- One outgoing HTTP request as issued by `sendToBackend`. -/
structure Request where
  url : String
  body : String
  awaited : Bool
deriving Repr, DecidableEq

/-- The two requests `sendToBackend` issues, in source order: the
fire-and-forget one to `TEST_URL` (lines 268-274) and the awaited one to
`PRODUCTION_URL` (lines 279-285). -/
def sendToBackendRequests (t : String) : List Request :=
  [ { url := TEST_URL, body := t, awaited := false },
    { url := PRODUCTION_URL, body := t, awaited := true } ]

/-- The `.catch(() => \x7b\x7d)` attached to the `TEST_URL` fetch
(line 274): its outcome is discarded. -/
def testFetchHandler : FetchOutcome → Unit := fun _ => ()

/-- End-to-end model of one `sendToBackend` call as a function of the
outcomes of both fetches: the test outcome is consumed only by
`testFetchHandler`, the production outcome drives the continuation. -/
def sendToBackendModel (s : CState) (t : String)
    (testOut prodOut : FetchOutcome) : CState :=
  let _ := testFetchHandler testOut
  fetchResolved (sendPhase1 s t) t prodOut

/-- Invariant of reachable states: whenever the interruption flag is
observably set, the 300 ms resume callback of `toggleAssistant`'s
interrupt branch is still pending (the only code that leaves the flag set
across a handler is that branch, and it always schedules the resume). -/
def InterruptInv (s : CState) : Prop :=
  s.pendingInterruption = true → 0 < s.toggleResumes

/-- A dispatch outcome counts as failed when the response status is
non-ok or the transport itself failed — both land in `sendToBackend`'s
`catch`. -/
def isFailure : FetchOutcome → Bool
  | .resp ok _ _ => !ok
  | .netError => true

/-- A concrete mid-session state: enabled and speaking, one playing
handle with handlers attached, recognition still active (its stop was
requested at dispatch time but its `onend` has not arrived yet). -/
def speakingState : CState :=
  { initState true with
      isEnabled := true
      isAiSpeaking := true
      recognitionActive := true
      currentAudio := some { url := 0, paused := false, handlersAttached := true }
      nextUrl := 1
      createdUrls := [0] }

/-- Event trace from a fresh mount: enable, capture "hi", play the reply,
then an interrupting "bye" queues its dispatch behind a 300 ms timeout. -/
def disableRaceTrace : List Event :=
  [ .toggle,
    .startFire 0 false,
    .result "hi",
    .fetchResolve "hi" (.resp true (some "audio/mpeg") 1),
    .playSettle 0 true,
    .result "bye" ]

/-- Event trace from a fresh mount in which `audio.play()` rejects for the
first reply (the `catch` of `playAudioBlob` runs, revoking nothing and
keeping the ref), and a second dispatch then replaces the stale handle. -/
def leakTrace : List Event :=
  [ .toggle,
    .startFire 0 false,
    .result "hi",
    .recEnd,
    .fetchResolve "hi" (.resp true (some "audio/mpeg") 1),
    .playSettle 0 false,
    .startFire 0 false,
    .result "bye",
    .fetchResolve "bye" (.resp true (some "audio/mpeg") 2) ]

/-- Event trace from a fresh mount: enable, then `recognition.start()`
throws twice in a row (first call and its single scheduled retry). -/
def retryFailTrace : List Event :=
  [ .toggle, .startFire 0 true, .startFire 1 true ]

/-! Frame lemmas: which handlers leave which fields untouched. -/

theorem isEnabled_startListening (s : CState) (k : Nat) (f : Bool) :
    (startListening s k f).isEnabled = s.isEnabled := by
  unfold startListening; (repeat' split) <;> rfl

theorem isEnabled_onresult (s : CState) (t : String) :
    (onresult s t).isEnabled = s.isEnabled := by
  rcases hc : s.currentAudio with _ | a <;>
    simp only [onresult, sendPhase1, hc] <;> (repeat' split) <;> rfl

theorem isEnabled_respContinuation (s : CState) (out : FetchOutcome) :
    (respContinuation s out).isEnabled = s.isEnabled := by
  cases out with
  | resp ok ct b =>
      cases ok <;> simp only [respContinuation, playAudioBlobSync] <;>
        (repeat' split) <;> rfl
  | netError => simp only [respContinuation]; (repeat' split) <;> rfl

theorem isEnabled_playSettled (s : CState) (u : Nat) (ok : Bool) :
    (playSettled s u ok).isEnabled = s.isEnabled := by
  rcases hc : s.currentAudio with _ | a <;>
    simp only [playSettled, hc] <;> (repeat' split) <;> rfl

theorem isEnabled_audioEnded (s : CState) :
    (audioEnded s).isEnabled = s.isEnabled := by
  rcases hc : s.currentAudio with _ | a <;>
    simp only [audioEnded, hc] <;> (repeat' split) <;> rfl

theorem isEnabled_audioErrored (s : CState) :
    (audioErrored s).isEnabled = s.isEnabled := by
  rcases hc : s.currentAudio with _ | a <;>
    simp only [audioErrored, hc] <;> (repeat' split) <;> rfl

/-- `isEnabled` is written only by the toggle command: no recognizer
callback, timeout, fetch settlement, or audio event changes it. -/
theorem isEnabled_step (s : CState) (e : Event) (h : e ≠ Event.toggle) :
    (step s e).isEnabled = s.isEnabled := by
  cases e with
  | toggle => exact absurd rfl h
  | result t => exact isEnabled_onresult s t
  | recError => simp only [step]; unfold onRecError; (repeat' split) <;> rfl
  | recEnd => simp only [step]; unfold onRecEnd; (repeat' split) <;> rfl
  | verifyFire f =>
      simp only [step]; unfold verifyFired
      (repeat' split) <;> first | rfl | exact isEnabled_startListening _ 1 f
  | startFire k f =>
      simp only [step]; unfold startTimerFired
      split
      · exact isEnabled_startListening _ k f
      · rfl
  | resumeFire f =>
      simp only [step]; unfold toggleResumeFired
      split
      · exact isEnabled_startListening _ 0 f
      · rfl
  | dispatchFire t => simp only [step]; unfold dispatchFired sendPhase1; (repeat' split) <;> rfl
  | fetchResolve t out =>
      simp only [step]; unfold fetchResolved
      split
      · exact isEnabled_respContinuation _ out
      · rfl
  | playSettle u ok => exact isEnabled_playSettled s u ok
  | ended => exact isEnabled_audioEnded s
  | errored => exact isEnabled_audioErrored s
  | clearFire => simp only [step]; unfold clearFired; (repeat' split) <;> rfl

/-- C10: if no speech recognizer is available in the environment, the
toggle command is a complete no-op — the state is unchanged, so none of
the enabled / recording / responding / speaking flags changes and no
capture, dispatch, or playback is initiated. -/
theorem toggle_noop_without_recognizer (s : CState)
    (h : s.hasRecognizer = false) : toggleAssistant s = s := by
  unfold toggleAssistant; simp [h]

theorem toggle_noop_without_recognizer_witness :
    toggleAssistant (initState false) = initState false :=
  toggle_noop_without_recognizer (initState false) rfl

/-- C9: a transcript arriving while a dispatch is in flight
(`isResponding`) and the AI is not speaking is silently discarded: the
only state change is the scheduled clearing of the transient display —
no dispatch is started or queued, the in-flight one is untouched, and no
flag changes. -/
theorem transcript_discarded_while_responding (s : CState) (t : String)
    (hact : s.recognitionActive = true) (hspeak : s.isAiSpeaking = false)
    (hresp : s.isResponding = true) :
    onresult s t = { s with pendingClears := s.pendingClears + 1 } := by
  unfold onresult; simp [hact, hspeak, hresp]

theorem transcript_discarded_while_responding_witness :
    onresult
      { initState true with
          recognitionActive := true, isResponding := true, isEnabled := true }
      "extra"
    = { initState true with
          recognitionActive := true, isResponding := true, isEnabled := true,
          pendingClears := 1 } :=
  transcript_discarded_while_responding _ "extra" rfl rfl rfl

/-- C4: `sendToBackend` issues one fire-and-forget request to the
secondary (`TEST_URL`) and one awaited request to the primary
(`PRODUCTION_URL`), and the resulting state depends solely on the primary
outcome — changing the secondary outcome changes nothing. -/
theorem dispatch_fire_and_await (s : CState) (t : String)
    (o o' p : FetchOutcome) :
    sendToBackendModel s t o p = sendToBackendModel s t o' p ∧
    sendToBackendRequests t =
      [{ url := TEST_URL, body := t, awaited := false },
       { url := PRODUCTION_URL, body := t, awaited := true }] :=
  ⟨rfl, rfl⟩

/-- C5: a success-status response is handed to playback exactly once —
whether or not the declared content kind is an audio format, exactly one
`playAudioBlob` call with the body happens (the non-audio case is the
lenient best-effort path). -/
theorem success_played_exactly_once (s : CState) (t : String)
    (ct : Option String) (b : Nat) (h : t ∈ s.fetches) :
    (fetchResolved s t (.resp true ct b)).playStarts = s.playStarts ++ [b] := by
  unfold fetchResolved respContinuation playAudioBlobSync
  simp [h]
  split <;> rfl

theorem success_played_exactly_once_witness :
    (fetchResolved { initState true with fetches := ["hello"] } "hello"
      (.resp true (some "application/json") 5)).playStarts = [5] :=
  success_played_exactly_once _ "hello" (some "application/json") 5 (by decide)

/-- C1 fails as stated: in the interruption branch the code resets
`pendingInterruptionRef.current` back to `false` immediately (line 68,
"Reset interruption flag immediately so audio.onended can restart mic"),
while the new dispatch is only a 300 ms timeout away — at the concrete
speaking state, right after the handler the flag is already clear yet no
dispatch is underway (not responding, no fetch in flight, the transcript
still queued). -/
theorem interruption_flag_cleared_early :
    (onresult speakingState "stop").pendingInterruption = false ∧
    (onresult speakingState "stop").isResponding = false ∧
    (onresult speakingState "stop").fetches = [] ∧
    (onresult speakingState "stop").pendingDispatches = ["stop"] := by
  decide

/-- C1 (amended): a transcript arriving while Speaking sets the
InterruptionFlag, stops the active handle (pause + revoke + null, speaking
flag cleared), and schedules the new dispatch after a fixed delay — but
the flag is cleared again within the same handler, before the dispatch is
underway, not only once it is underway; the stopped handle, being paused
and dereferenced, emits no terminal event, so no stale transition occurs
(its terminal events on the post-handler state are no-ops). -/
theorem interruption_teardown (s : CState) (t : String) (a : AudioH)
    (hact : s.recognitionActive = true) (hspeak : s.isAiSpeaking = true)
    (ha : s.currentAudio = some a) :
    (onresult s t).pendingInterruption = false ∧
    (onresult s t).isResponding = s.isResponding ∧
    (onresult s t).fetches = s.fetches ∧
    (onresult s t).currentAudio = none ∧
    (onresult s t).revokedUrls = s.revokedUrls ++ [a.url] ∧
    (onresult s t).isAiSpeaking = false ∧
    (onresult s t).pendingDispatches = s.pendingDispatches ++ [t] ∧
    audioEnded (onresult s t) = onresult s t ∧
    audioErrored (onresult s t) = onresult s t := by
  simp only [onresult, hact, hspeak, ha]
  refine ⟨rfl, rfl, rfl, rfl, rfl, rfl, rfl, ?_, ?_⟩ <;> rfl

theorem interruption_teardown_witness :
    (onresult speakingState "hey").currentAudio = none ∧
    (onresult speakingState "hey").pendingDispatches = ["hey"] :=
  ⟨(interruption_teardown speakingState "hey" _ rfl rfl rfl).2.2.2.1,
   (interruption_teardown speakingState "hey" _ rfl rfl rfl).2.2.2.2.2.2.1⟩

/-- C3 fails as stated: after `recognition.start()` throws on both the
first call and its single retry, the catch block (lines 179-189) merely
logs and stops — the session is NOT forced to Idle (`isEnabled` is still
true) and no further retry is pending; no `CaptureUnavailable`-style
fatal error is surfaced anywhere in the component. -/
theorem double_start_failure_not_fatal :
    (runTrace (initState true) retryFailTrace).isEnabled = true ∧
    (runTrace (initState true) retryFailTrace).pendingStarts = [] ∧
    (runTrace (initState true) retryFailTrace).verifyTimer = false ∧
    (runTrace (initState true) retryFailTrace).isRecording = false ∧
    (runTrace (initState true) retryFailTrace).recognitionActive = false := by
  decide

/-- C3 (amended): if `recognition.start()` throws, exactly one re-start is
scheduled (attempt 1); if the verification window finds the session not
recording, the single verification retry runs with attempt 1 and arms no
further verification timer; a second consecutive failure schedules
nothing further — but it is not surfaced as a fatal error and the session
stays enabled rather than being forced to Idle. -/
theorem capture_retry_policy (s : CState) (f : Bool)
    (hrec : s.hasRecognizer = true) (hspeak : s.isAiSpeaking = false)
    (hresp : s.isResponding = false) (hrecd : s.isRecording = false)
    (hact : s.recognitionActive = false) (hen : s.isEnabled = true) :
    (startListening s 0 true).pendingStarts = s.pendingStarts ++ [1] ∧
    (startListening s 0 true).isRecording = false ∧
    (startListening s 1 true).pendingStarts = s.pendingStarts ∧
    (startListening s 1 true).isEnabled = true ∧
    (verifyFired { s with verifyTimer := true } f).verifyTimer = false := by
  refine ⟨?_, ?_, ?_, ?_, ?_⟩ <;>
    simp [startListening, verifyFired, hrec, hspeak, hresp, hrecd, hact, hen] <;>
    cases f <;> simp

theorem capture_retry_policy_witness :
    (startListening { initState true with isEnabled := true } 0 true).pendingStarts = [1] ∧
    (startListening { initState true with isEnabled := true } 1 true).isEnabled = true :=
  ⟨(capture_retry_policy _ false rfl rfl rfl rfl rfl rfl).1,
   (capture_retry_policy _ false rfl rfl rfl rfl rfl rfl).2.2.2.1⟩

/-- C8: at most one playback handle and one recognition session exist
(structurally, `currentAudioRef` is a single cell and `recognitionRef` a
single recognizer — `Option AudioH` and a `Bool` in the model); starting
a new playback first pauses and nulls any previous handle and installs
exactly the one fresh handle; and `startListening` while a recording is
in progress refuses to start: it touches only `isListeningRef`, starting
no second session. -/
theorem single_handle_single_session :
    (∀ s b a, s.currentAudio = some a →
      (playAudioBlobSync s b).2 = some { a with paused := true } ∧
      (playAudioBlobSync s b).1.currentAudio =
        some { url := s.nextUrl, paused := false, handlersAttached := false }) ∧
    (∀ s k f, s.isRecording = true →
      (startListening s k f).recognitionActive = s.recognitionActive ∧
      (startListening s k f).isRecording = true ∧
      (startListening s k f).currentAudio = s.currentAudio) := by
  constructor
  · intro s b a ha; simp [playAudioBlobSync, ha]
  · intro s k f h
    unfold startListening
    by_cases h1 : s.hasRecognizer = true <;>
      by_cases h2 : (s.isAiSpeaking || s.isResponding) = true <;>
        simp [h1, h2, h]

theorem single_handle_single_session_witness :
    (playAudioBlobSync speakingState 9).2 =
      some { url := 0, paused := true, handlersAttached := true } ∧
    (startListening { initState true with isRecording := true } 0 false).recognitionActive
      = false :=
  ⟨(single_handle_single_session.1 speakingState 9 _ rfl).1,
   single_handle_single_session.2 { initState true with isRecording := true } 0 false rfl |>.1⟩

/-! The interruption-flag invariant: established at mount, preserved by
every event.  It justifies assuming `InterruptInv` about any reachable
state. -/

theorem interruptInv_init (b : Bool) : InterruptInv (initState b) := by
  intro hp; simp [initState] at hp

theorem flagResumes_startListening (s : CState) (k : Nat) (f : Bool) :
    (startListening s k f).pendingInterruption = s.pendingInterruption ∧
    (startListening s k f).toggleResumes = s.toggleResumes := by
  unfold startListening; (repeat' split) <;> exact ⟨rfl, rfl⟩

theorem interruptInv_step (s : CState) (e : Event) (h : InterruptInv s) :
    InterruptInv (step s e) := by
  unfold InterruptInv at h ⊢
  cases e with
  | toggle =>
      simp only [step]
      rcases hc : s.currentAudio with _ | a <;>
        simp only [toggleAssistant, stopAiAudio, hc] <;>
          (repeat' split) <;> intro hp <;>
            first
              | exact Bool.noConfusion hp
              | exact Nat.succ_pos _
              | exact h hp
  | result t =>
      simp only [step]
      rcases hc : s.currentAudio with _ | a <;>
        simp only [onresult, sendPhase1, hc] <;>
          (repeat' split) <;> intro hp <;>
            first
              | exact Bool.noConfusion hp
              | exact Nat.succ_pos _
              | exact h hp
  | recError =>
      simp only [step, onRecError]; (repeat' split) <;> intro hp <;> exact h hp
  | recEnd =>
      simp only [step, onRecEnd]; (repeat' split) <;> intro hp <;> exact h hp
  | verifyFire f =>
      simp only [step, verifyFired]
      (repeat' split) <;>
        first
          | simpa using h
          | (intro hp
             rcases flagResumes_startListening
               { s with verifyTimer := false } 1 f with ⟨h1, h2⟩
             rw [h1] at hp; rw [h2]; exact h hp)
  | startFire k f =>
      simp only [step, startTimerFired]
      split
      · intro hp
        rcases flagResumes_startListening
          { s with pendingStarts := s.pendingStarts.erase k } k f with ⟨h1, h2⟩
        rw [h1] at hp; rw [h2]; exact h hp
      · exact h
  | resumeFire f =>
      simp only [step, toggleResumeFired]
      split
      · intro hp
        rcases flagResumes_startListening
          { s with toggleResumes := s.toggleResumes - 1,
                   pendingInterruption := false } 0 f with ⟨h1, h2⟩
        rw [h1] at hp; simp at hp
      · exact h
  | dispatchFire t =>
      simp only [step, dispatchFired, sendPhase1]
      (repeat' split) <;> intro hp <;> exact h hp
  | fetchResolve t out =>
      simp only [step, fetchResolved]
      split
      · cases out with
        | resp ok ct b =>
            cases ok <;>
              simp only [respContinuation, playAudioBlobSync] <;>
                (repeat' split) <;> intro hp <;> exact h hp
        | netError =>
            simp only [respContinuation]
            (repeat' split) <;> intro hp <;> exact h hp
      · exact h
  | playSettle u ok =>
      simp only [step]
      rcases hc : s.currentAudio with _ | a <;>
        simp only [playSettled, hc] <;> (repeat' split) <;> intro hp <;> exact h hp
  | ended =>
      simp only [step]
      rcases hc : s.currentAudio with _ | a <;>
        simp only [audioEnded, hc] <;> (repeat' split) <;> intro hp <;>
          first
            | exact Bool.noConfusion hp
            | exact h hp
  | errored =>
      simp only [step]
      rcases hc : s.currentAudio with _ | a <;>
        simp only [audioErrored, hc] <;> (repeat' split) <;> intro hp <;> exact h hp
  | clearFire =>
      simp only [step, clearFired]; (repeat' split) <;> intro hp <;> exact h hp

/-- C6: a dispatch resolving with a non-success status or a transport
failure while the session is enabled attempts no playback, enters no
playback state (`isAiSpeaking` unchanged), does not terminate the session
(`isEnabled` stays true), clears the responding flag, and leaves a
capture restart pending — either scheduled by its own catch block or, when
a manual interruption is in flight, by the interruption's resume callback
(guaranteed by the reachable-state invariant `InterruptInv`). -/
theorem dispatch_failure_recovery (s : CState) (t : String)
    (out : FetchOutcome) (hinv : InterruptInv s)
    (hfail : isFailure out = true) (ht : t ∈ s.fetches)
    (hen : s.isEnabled = true) :
    (fetchResolved s t out).playStarts = s.playStarts ∧
    (fetchResolved s t out).isAiSpeaking = s.isAiSpeaking ∧
    (fetchResolved s t out).isResponding = false ∧
    (fetchResolved s t out).isEnabled = true ∧
    ((fetchResolved s t out).pendingStarts ≠ [] ∨
      0 < (fetchResolved s t out).toggleResumes) := by
  cases out with
  | resp ok ct b =>
      cases ok with
      | true => simp [isFailure] at hfail
      | false =>
          by_cases hp : s.pendingInterruption = true
          · have hr := hinv hp
            simp [fetchResolved, ht, respContinuation, hen, hp]
            omega
          · simp at hp
            simp [fetchResolved, ht, respContinuation, hen, hp]
  | netError =>
      by_cases hp : s.pendingInterruption = true
      · have hr := hinv hp
        simp [fetchResolved, ht, respContinuation, hen, hp]
        omega
      · simp at hp
        simp [fetchResolved, ht, respContinuation, hen, hp]

theorem dispatch_failure_recovery_witness :
    (fetchResolved { initState true with fetches := ["hello"], isEnabled := true }
      "hello" (.resp false none 0)).playStarts = [] ∧
    ((fetchResolved { initState true with fetches := ["hello"], isEnabled := true }
      "hello" (.resp false none 0)).pendingStarts ≠ [] ∨
      0 < (fetchResolved { initState true with fetches := ["hello"], isEnabled := true }
        "hello" (.resp false none 0)).toggleResumes) :=
  ⟨(dispatch_failure_recovery _ "hello" (.resp false none 0)
      (fun hp => by simp [initState] at hp) rfl (by decide) rfl).1,
   (dispatch_failure_recovery _ "hello" (.resp false none 0)
      (fun hp => by simp [initState] at hp) rfl (by decide) rfl).2.2.2.2⟩

/-- C2 fails as stated: after the interruption of a reply queues a
dispatch behind its 300 ms timeout, a disable toggle does put the session
in Idle (all flags false, disabled) — but the already-scheduled dispatch
still fires, re-entering the responding state without any enable, and its
successful response is applied and starts playback while disabled. -/
theorem disable_race_counterexample :
    (runTrace (initState true) (disableRaceTrace ++ [.toggle])).isEnabled = false ∧
    (runTrace (initState true) (disableRaceTrace ++ [.toggle])).isResponding = false ∧
    (runTrace (initState true) (disableRaceTrace ++ [.toggle])).isAiSpeaking = false ∧
    (runTrace (initState true) (disableRaceTrace ++ [.toggle])).isRecording = false ∧
    (runTrace (initState true)
      (disableRaceTrace ++ [.toggle, .dispatchFire "bye"])).isResponding = true ∧
    (runTrace (initState true)
      (disableRaceTrace ++ [.toggle, .dispatchFire "bye"])).isEnabled = false ∧
    (runTrace (initState true)
      (disableRaceTrace ++ [.toggle, .dispatchFire "bye",
        .fetchResolve "bye" (.resp true (some "audio/mpeg") 2)])).isAiSpeaking = true ∧
    (runTrace (initState true)
      (disableRaceTrace ++ [.toggle, .dispatchFire "bye",
        .fetchResolve "bye" (.resp true (some "audio/mpeg") 2)])).playStarts = [1, 2] := by
  decide

/-- C2 (amended): immediately after a disable toggle the session is
disabled with recording off and no interruption pending, and no event
other than the toggle command ever changes the enabled flag; however a
dispatch that was already scheduled (or in flight) when the session was
disabled is still applied when it fires — `sendToBackend` and
`playAudioBlob` never consult `isEnabled` — so it re-enters the
responding state and can start playback without a new enable. -/
theorem disable_semantics :
    (∀ s, s.hasRecognizer = true → s.isAiSpeaking = false →
      s.isResponding = false → s.isEnabled = true →
      (toggleAssistant s).isEnabled = false ∧
      (toggleAssistant s).isRecording = false ∧
      (toggleAssistant s).pendingInterruption = false) ∧
    (∀ s e, e ≠ Event.toggle → (step s e).isEnabled = s.isEnabled) ∧
    (∀ s t, t ∈ s.pendingDispatches → (dispatchFired s t).isResponding = true) := by
  refine ⟨?_, isEnabled_step, ?_⟩
  · intro s h1 h2 h3 h4
    simp [toggleAssistant, h1, h2, h3, h4]
  · intro s t ht
    simp [dispatchFired, sendPhase1, ht]

theorem disable_semantics_witness :
    (toggleAssistant { initState true with isEnabled := true }).isEnabled = false ∧
    (step { initState true with isEnabled := true } .recEnd).isEnabled = true ∧
    (dispatchFired { initState true with pendingDispatches := ["hi"] } "hi").isResponding
      = true :=
  ⟨(disable_semantics.1 { initState true with isEnabled := true } rfl rfl rfl rfl).1,
   disable_semantics.2.1 { initState true with isEnabled := true } .recEnd (by decide),
   disable_semantics.2.2 { initState true with pendingDispatches := ["hi"] } "hi"
     (by decide)⟩

/-- Helper: in any single step, either no URL is revoked, or exactly the
current handle's URL is revoked once. -/
theorem revoke_step_cases (s : CState) (e : Event) :
    (step s e).revokedUrls = s.revokedUrls ∨
    ∃ a, s.currentAudio = some a ∧
      (step s e).revokedUrls = s.revokedUrls ++ [a.url] := by
  cases e with
  | toggle =>
      simp only [step]
      rcases hc : s.currentAudio with _ | a <;>
        simp only [toggleAssistant, stopAiAudio, hc] <;> (repeat' split) <;>
          first
            | exact Or.inl rfl
            | exact Or.inr ⟨a, rfl, rfl⟩
  | result t =>
      simp only [step]
      rcases hc : s.currentAudio with _ | a <;>
        simp only [onresult, sendPhase1, hc] <;> (repeat' split) <;>
          first
            | exact Or.inl rfl
            | exact Or.inr ⟨a, rfl, rfl⟩
  | recError =>
      simp only [step, onRecError]; (repeat' split) <;> exact Or.inl rfl
  | recEnd =>
      simp only [step, onRecEnd]; (repeat' split) <;> exact Or.inl rfl
  | verifyFire f =>
      simp only [step, verifyFired]
      (repeat' split) <;>
        first
          | exact Or.inl rfl
          | exact Or.inl (by unfold startListening; (repeat' split) <;> rfl)
  | startFire k f =>
      simp only [step, startTimerFired]
      split
      · exact Or.inl (by unfold startListening; (repeat' split) <;> rfl)
      · exact Or.inl rfl
  | resumeFire f =>
      simp only [step, toggleResumeFired]
      split
      · exact Or.inl (by unfold startListening; (repeat' split) <;> rfl)
      · exact Or.inl rfl
  | dispatchFire t =>
      simp only [step, dispatchFired, sendPhase1]
      (repeat' split) <;> exact Or.inl rfl
  | fetchResolve t out =>
      simp only [step, fetchResolved]
      split
      · cases out with
        | resp ok ct b =>
            cases ok <;> simp only [respContinuation, playAudioBlobSync] <;>
              (repeat' split) <;> exact Or.inl rfl
        | netError =>
            simp only [respContinuation]; (repeat' split) <;> exact Or.inl rfl
      · exact Or.inl rfl
  | playSettle u ok =>
      simp only [step]
      rcases hc : s.currentAudio with _ | a <;>
        simp only [playSettled, hc] <;> (repeat' split) <;> exact Or.inl rfl
  | ended =>
      simp only [step]; unfold audioEnded
      (repeat' split) <;>
        first
          | exact Or.inl rfl
          | exact Or.inr ⟨_, by assumption, rfl⟩
  | errored =>
      simp only [step]; unfold audioErrored
      (repeat' split) <;>
        first
          | exact Or.inl rfl
          | exact Or.inr ⟨_, by assumption, rfl⟩
  | clearFire =>
      simp only [step, clearFired]; (repeat' split) <;> exact Or.inl rfl

/-- C7 fails as stated: when `audio.play()` rejects, the `catch` of
`playAudioBlob` (lines 391-400) neither revokes the object URL nor nulls
the ref; when the next playback then replaces the stale handle (lines
339-343), the old URL is dropped without being revoked.  After this
concrete run, URL 0 was created, is referenced by no handle and no
pending play, and was never released. -/
theorem url_leak_counterexample :
    0 ∈ (runTrace (initState true) leakTrace).createdUrls ∧
    0 ∉ (runTrace (initState true) leakTrace).revokedUrls ∧
    (runTrace (initState true) leakTrace).currentAudio =
      some { url := 1, paused := false, handlersAttached := false } ∧
    0 ∉ (runTrace (initState true) leakTrace).playAwaits := by
  decide

/-- C7 (amended): every release targets the current handle and happens at
most once per event; the natural-end and playback-error terminal paths
each release the URL exactly once and null the handle (so the other
terminal path, now finding no handle, cannot release again), and a stop
preemption (`stopAiAudio`, or the interruption branch via the same code)
also releases exactly once; but the claim's "no path leaves it
unreleased" fails: the `catch` path taken when `audio.play()` itself
rejects releases nothing, and replacing a previous handle at the start of
a new playback releases nothing either. -/
theorem url_release_discipline :
    (∀ s e, (step s e).revokedUrls = s.revokedUrls ∨
      ∃ a, s.currentAudio = some a ∧
        (step s e).revokedUrls = s.revokedUrls ++ [a.url]) ∧
    (∀ s a, s.currentAudio = some a → a.handlersAttached = true →
      a.paused = false →
      (audioEnded s).revokedUrls = s.revokedUrls ++ [a.url] ∧
      (audioEnded s).currentAudio = none ∧
      (audioErrored s).revokedUrls = s.revokedUrls ++ [a.url] ∧
      (audioErrored s).currentAudio = none) ∧
    (∀ s a, s.currentAudio = some a →
      (stopAiAudio s).revokedUrls = s.revokedUrls ++ [a.url] ∧
      (stopAiAudio s).currentAudio = none) ∧
    (∀ s u, (playSettled s u false).revokedUrls = s.revokedUrls) ∧
    (∀ s b, (playAudioBlobSync s b).1.revokedUrls = s.revokedUrls) := by
  refine ⟨revoke_step_cases, ?_, ?_, ?_, ?_⟩
  · intro s a ha h1 h2
    by_cases hq : (s.isEnabled && !s.pendingInterruption) = true <;>
      simp [audioEnded, audioErrored, ha, h1, h2, hq]
  · intro s a ha; simp [stopAiAudio, ha]
  · intro s u
    rcases hc : s.currentAudio with _ | a <;>
      simp only [playSettled, hc] <;> (repeat' split) <;> rfl
  · intro s b; rfl

theorem url_release_discipline_witness :
    (audioEnded speakingState).revokedUrls = [0] ∧
    (stopAiAudio speakingState).currentAudio = none :=
  ⟨(url_release_discipline.2.1 speakingState _ rfl rfl rfl).1,
   (url_release_discipline.2.2.1 speakingState _ rfl).2⟩

end MithaiVoice
